import Mathlib

/-!
# Verification of the HalalVision decision engine and blur compositor

Shallow embedding of the algorithmic core of the repository:

* `HalalVisionDetector.analyzeImage` (content script, version in `part_000`,
  structurally shared with `part_001`) and the older variant in `part_002`
  (`analyzeImageV2` below);
* `HalalVisionDetector.hasPersonInSegmentation` (`part_000`/`part_001`, 0.5% threshold;
  `part_002` uses 1%, embedded as `hasPersonInSegmentationV2`);
* `BlurEngine.stackBlur`, `BlurEngine.blurRegion`, `BlurEngine.applyBlurredOverlay`.

JS numbers are modelled as exact rationals (`ℚ`); pixel buffers as `List ℕ`
(RGBA bytes); external detector outputs (face detections, the second face pass's
count, the BodyPix segmentation) are inputs to the embedded decision functions,
since the models themselves are out of scope.  In part_000/part_001 the external
detector calls sit directly inside `analyzeImage`'s try-block, so a JS exception
from one of them reaches `analyzeImage`'s own catch; that is modelled by the
boolean input `detectorThrows` (the throw taken at the first external call of
the cycle, before any result field has been assigned).  In part_002 every
external detector call is wrapped inside `detectFaces`/`segmentBody`, whose
internal catches swallow the exception and return `[]`/`null`; those two throw
sites are modelled by the boolean inputs `faceThrows`/`segThrows`.
-/

namespace HalalVision

/-- Gender label attached to a face detection by face-api
(`detection.gender`), plus the `'unknown'` value the engine substitutes
below the confidence threshold. -/
inductive Gender where
  | male
  | female
  | unknown
  deriving DecidableEq, Repr

/-- A face-api bounding box (`detection.detection.box`): x, y, width, height. -/
structure FaceBox where
  x : ℚ
  y : ℚ
  width : ℚ
  height : ℚ
  deriving DecidableEq, Repr

/-- One entry of the face-api detection list consumed by `analyzeImage`:
`{ gender, genderProbability, detection.box }`. -/
structure Detection where
  gender : Gender
  genderProbability : ℚ
  box : FaceBox
  deriving DecidableEq, Repr

/-- A face pushed onto `results.faces`
(`{ topLeft: [box.x, box.y], bottomRight: [box.x+box.width, box.y+box.height] }`). -/
structure Face where
  topLeft : ℚ × ℚ
  bottomRight : ℚ × ℚ
  deriving DecidableEq, Repr

/-- A BodyPix segmentation result: the object may lack its `data` array
(`!segmentation.data`), and `data` is a per-pixel array where a positive
value marks a person pixel. -/
structure Segmentation where
  data : Option (List ℤ)
  deriving DecidableEq, Repr

/-- The `results` object returned by `HalalVisionDetector.analyzeImage`. -/
structure Results where
  faces : List Face
  bodySegmentation : Option Segmentation
  shouldBlur : Bool
  isFallback : Bool
  deriving DecidableEq, Repr

/-- The policy flags of `settings` read by the decision logic. -/
structure Settings where
  blurFaces : Bool
  blurMen : Bool
  blurWomen : Bool
  blurBodies : Bool
  deriving DecidableEq, Repr

/-- `HalalVisionDetector.hasPersonInSegmentation` (part_000 lines 451-456,
part_001 lines 247-252): false for a null segmentation or missing `data`;
otherwise compares the count of strictly positive entries against
`data.length * 0.005` (0.5% coverage), with `0.005` modelled as the exact
rational `5/1000`. -/
def hasPersonInSegmentation (segmentation : Option Segmentation) : Bool :=
  match segmentation with
  | none => false
  | some seg =>
    match seg.data with
    | none => false
    | some data =>
      decide (((data.filter fun val => 0 < val).length : ℚ) > (data.length : ℚ) * (5 / 1000))

/-- `HalalVisionDetector.hasPersonInSegmentation` in part_002 (lines 202-208):
same shape with a 1% threshold. -/
def hasPersonInSegmentationV2 (segmentation : Option Segmentation) : Bool :=
  match segmentation with
  | none => false
  | some seg =>
    match seg.data with
    | none => false
    | some data =>
      decide (((data.filter fun val => 0 < val).length : ℚ) > (data.length : ℚ) * (1 / 100))

/-- The effective gender of a detection (part_000 lines 347-352): the detected
gender, demoted to `unknown` when `genderProbability < 0.7`.  (`part_001` uses
the constant 0.6 with the same structure.) -/
def effectiveGender (gender : Gender) (genderProbability : ℚ) : Gender :=
  if genderProbability < 7 / 10 then Gender.unknown else gender

/-- The per-face flagging decision of part_000's `analyzeImage` loop
(lines 354-372): `shouldBlurFace` is set when `blurFaces` is on, and otherwise
by the two sequential gender-specific checks (which OR together). -/
def shouldBlurFace (s : Settings) (gender : Gender) (genderProbability : ℚ) : Bool :=
  if s.blurFaces then true
  else
    (s.blurMen && decide (effectiveGender gender genderProbability = Gender.male))
      || (s.blurWomen && decide (effectiveGender gender genderProbability = Gender.female))

/-- The `results.faces` list built by part_000's `analyzeImage` (lines 329-381):
the face/gender detection block only runs when one of the face flags is set,
and pushes the box of every detection flagged by `shouldBlurFace`, converted
to the `topLeft`/`bottomRight` format. -/
def flaggedFaces (s : Settings) (detections : List Detection) : List Face :=
  if s.blurFaces || s.blurMen || s.blurWomen then
    (detections.filter fun d => shouldBlurFace s d.gender d.genderProbability).map
      fun d => { topLeft := (d.box.x, d.box.y),
                 bottomRight := (d.box.x + d.box.width, d.box.y + d.box.height) }
  else []

/-- The `runBodyPix` tie-break of part_000's `analyzeImage` (lines 400-423):
run BodyPix when a face was flagged, or when the second face-detection pass
(`allFaces`) found no face at all; skip it when faces were found but all safe. -/
def runBodyPix (resultFaces : List Face) (allFacesCount : ℕ) : Bool :=
  if resultFaces.length > 0 then true
  else if allFacesCount = 0 then true
  else false

/-- `HalalVisionDetector.analyzeImage` of part_000 (lines 314-437), as a function
of its external inputs: `isLoaded` (model readiness), `detectorThrows` (an
exception from the first external detector call of the try-block, swallowed by
the empty `catch`), the settings, the face-api detection list, the face count of
the second `detectAllFaces` pass, and the BodyPix segmentation result (`none`
also covers `segmentBody`'s internal null returns).  Structure shared with
part_001 lines 123-234. -/
def analyzeImage (isLoaded detectorThrows : Bool) (s : Settings)
    (detections : List Detection) (allFacesCount : ℕ)
    (segmentation : Option Segmentation) : Results :=
  let results : Results :=
    { faces := [], bodySegmentation := none, shouldBlur := false, isFallback := !isLoaded }
  if !isLoaded then results
  else if detectorThrows then results
  else
    let faces := flaggedFaces s detections
    let bodySegmentation :=
      if s.blurBodies then
        if runBodyPix faces allFacesCount then segmentation else none
      else none
    { faces := faces
      bodySegmentation := bodySegmentation
      shouldBlur := decide (faces.length > 0)
        || (bodySegmentation.isSome && hasPersonInSegmentation bodySegmentation)
      isFallback := false }

/-- `HalalVisionDetector.detectFaces` of part_002 (lines 137-147):
`if (!this.faceModel) return [];` then the `estimateFaces` call in a try whose
catch returns `[]` — an exception from the external face-detector call is
swallowed here (`faceThrows`) and never escapes. -/
def detectFaces (faceModel faceThrows : Bool) (predictions : List Face) : List Face :=
  if !faceModel then []
  else if faceThrows then []
  else predictions

/-- `HalalVisionDetector.segmentBody` of part_002 (lines 149-163):
`if (!this.bodyModel) return null;` then the `segmentPerson` call in a try whose
catch returns `null` — an exception from the external segmentation call is
swallowed here (`segThrows`) and never escapes.  (part_000's `segmentBody`,
lines 440-449, has the same catch-to-null shape; its `none` outcomes are folded
into `analyzeImage`'s `segmentation` input.) -/
def segmentBody (bodyModel segThrows : Bool) (segmentation : Option Segmentation) :
    Option Segmentation :=
  if !bodyModel then none
  else if segThrows then none
  else segmentation

/-- `HalalVisionDetector.analyzeImage` of part_002 (lines 165-200): no gender
logic; `faceModel`/`bodyModel` model the presence of the loaded models
(`this.faceModel`, `this.bodyModel`).  Both external detector calls go through
`detectFaces`/`segmentBody`, whose internal catches swallow any exception and
return `[]`/`null`, so the outer catch of lines 193-197 (which would set
`shouldBlur = true, isFallback = true`) is unreachable by an external
detector-call exception and is therefore not modelled: a throwing cycle
(`faceThrows`/`segThrows`) completes normally on the substituted inputs. -/
def analyzeImageV2 (isLoaded : Bool) (s : Settings)
    (faceModel bodyModel faceThrows segThrows : Bool) (predictions : List Face)
    (segmentation : Option Segmentation) : Results :=
  let results : Results :=
    { faces := [], bodySegmentation := none, shouldBlur := false, isFallback := !isLoaded }
  if !isLoaded then { results with shouldBlur := true }
  else
    let faces :=
      if s.blurFaces && faceModel then detectFaces faceModel faceThrows predictions else []
    let bodySegmentation :=
      if s.blurBodies && bodyModel then segmentBody bodyModel segThrows segmentation else none
    { faces := faces
      bodySegmentation := bodySegmentation
      shouldBlur := decide (faces.length > 0)
        || (bodySegmentation.isSome && hasPersonInSegmentationV2 bodySegmentation)
      isFallback := false }

/-! ## BlurEngine -/

/-- The padded rectangle computed by `BlurEngine.blurRegion`
(part_000 lines 524-545, identical in part_001/part_002). -/
structure ExpandedRegion where
  expandedX : ℚ
  expandedY : ℚ
  expandedWidth : ℚ
  expandedHeight : ℚ
  deriving DecidableEq, Repr

/-- The rectangle arithmetic of `BlurEngine.blurRegion` (part_000 lines 524-535):
padding is 20% (`0.2`, modelled as `2/10`) of the larger box dimension; the
origin is clamped below at 0, the extent is `width + padding * 2`
(resp. height) with no clamp against the frame's right/bottom edge.  The pixel
work on this region (`getImageData`/`stackBlur`/`putImageData`) is delegated to
the canvas API and `stackBlur`. -/
def blurRegion (topLeft bottomRight : ℚ × ℚ) : ExpandedRegion :=
  let x := topLeft.1
  let y := topLeft.2
  let width := bottomRight.1 - topLeft.1
  let height := bottomRight.2 - topLeft.2
  let padding := max width height * (2 / 10)
  { expandedX := max 0 (x - padding)
    expandedY := max 0 (y - padding)
    expandedWidth := width + padding * 2
    expandedHeight := height + padding * 2 }

/-- `BlurEngine.stackBlur` (part_000 lines 583-672): `radius = Math.floor(radius)`,
then the `radius < 1` short-circuit returns with the buffer untouched.  When
`radius >= 1` is reached, the statement `divsum *= divsum` (line 602) assigns to
the `const` binding `divsum` declared on line 601, which under JavaScript
semantics throws a `TypeError` before any pass has read or written a pixel;
`Except.error ()` models that throw (the buffer is unmodified at the throw).
The sliding-window passes that follow this line in the source are embedded
separately as `stackBlurPasses`. -/
def stackBlur (pixels : List ℕ) (width height : ℕ) (radius : ℚ) : Except Unit (List ℕ) :=
  if ⌊radius⌋ < 1 then Except.ok pixels else Except.error ()

/-- The buffer contents after a call to `BlurEngine.stackBlur` returns or
throws: unchanged in both cases (early return, or throw before any write). -/
def stackBlurBufferAfter (pixels : List ℕ) (width height : ℕ) (radius : ℚ) : List ℕ :=
  match stackBlur pixels width height radius with
  | Except.ok buf => buf
  | Except.error _ => pixels

/-- `Math.min(wm, Math.max(i, 0))` (part_000 line 610): clamp an index into
`[0, m]`. -/
def clampTo (i : ℤ) (m : ℕ) : ℕ := (min (max i 0) (m : ℤ)).toNat

/-- `Math.round(s / d)` for an integer running sum `s` and window width `d`:
round half toward positive infinity, i.e. `⌊s/d + 1/2⌋ = ⌊(2s+d)/(2d)⌋`. -/
def jsRound (s : ℤ) (d : ℕ) : ℤ := Int.fdiv (2 * s + (d : ℤ)) (2 * (d : ℤ))

/-- The clamp a `Uint8ClampedArray` element store applies to an integer. -/
def clampByte (v : ℤ) : ℕ := (min (max v 0) 255).toNat

/-- The channel-`c` reads of `stackBlur`'s horizontal pass: `pixels[p + c]` with
`p = idx * 4` (out-of-range reads modelled as 0; no theorem below depends on an
out-of-range read's value). -/
def chReader (pixels : List ℕ) (c : ℕ) : ℕ → ℤ := fun idx => (pixels.getD (4 * idx + c) 0 : ℤ)

/-- Initial horizontal window sum (part_000 lines 609-614):
`for i = -radius..radius: p = (yi + min(wm, max(i, 0))) * 4; sum += pixels[p + c]`,
with `k = i + radius` ranging over `0..2*radius`. -/
def hInit (f : ℕ → ℤ) (yi wm radius : ℕ) : ℤ :=
  (List.range (2 * radius + 1)).foldl
    (fun s k => s + f (yi + clampTo ((k : ℤ) - (radius : ℤ)) wm)) 0

/-- One step of the horizontal output loop (part_000 lines 616-634) for one
channel: emit `round(sum / div)` (stored into a `Uint8ClampedArray`), then
slide the window by `vmin[x] = min(x + radius + 1, wm)` and
`vmax[x] = max(x - radius, 0)` (natural subtraction). -/
def hRowStep (f : ℕ → ℤ) (yw wm radius : ℕ) (acc : List ℕ × ℤ) (x : ℕ) : List ℕ × ℤ :=
  (acc.1 ++ [clampByte (jsRound acc.2 (2 * radius + 1))],
   acc.2 + f (yw + min (x + radius + 1) wm) - f (yw + (x - radius)))

/-- One row of the horizontal pass: the `w` channel values written to the
intermediate array (`r`/`g`/`b`) at indices `yw..yw+w-1`. -/
def hRow (f : ℕ → ℤ) (yw w wm radius : ℕ) : List ℕ :=
  ((List.range w).foldl (hRowStep f yw wm radius) ([], hInit f yw wm radius)).1

/-- The full horizontal pass (part_000 lines 604-636) for one channel: rows
concatenated in row-major order, matching the `yi`/`yw` bookkeeping of the
source. -/
def hPass (f : ℕ → ℤ) (w h radius : ℕ) : List ℕ :=
  (List.range h).foldl (fun acc y => acc ++ hRow f (y * w) w (w - 1) radius) []

/-- Initial vertical window sum (part_000 lines 641-649):
`yi = max(0, yp) + x` with `yp = i * width`; note the source clamps only below
(no `min` against the last row). -/
def vInit (ch : ℕ → ℤ) (x w radius : ℕ) : ℤ :=
  (List.range (2 * radius + 1)).foldl
    (fun s k => s + ch ((max 0 (((k : ℤ) - (radius : ℤ)) * (w : ℤ))).toNat + x)) 0

/-- One step of the vertical output loop (part_000 lines 651-670) for one
channel: emit `round(sum / div)` into `pixels[yi * 4 + c]`, then slide with
`vmin[y] = min(y + radius + 1, hm) * width` and
`vmax[y] = max(y - radius, 0) * width`. -/
def vColStep (ch : ℕ → ℤ) (x w hm radius : ℕ) (acc : List ℕ × ℤ) (y : ℕ) : List ℕ × ℤ :=
  (acc.1 ++ [clampByte (jsRound acc.2 (2 * radius + 1))],
   acc.2 + ch (x + min (y + radius + 1) hm * w) - ch (x + (y - radius) * w))

/-- One column of the vertical pass: the `h` channel values written back into
the pixel buffer at pixel indices `x, x + w, x + 2*w, ...`. -/
def vCol (ch : ℕ → ℤ) (x w hm h radius : ℕ) : List ℕ :=
  ((List.range h).foldl (vColStep ch x w hm radius) ([], vInit ch x w radius)).1

/-- The channel-`c` value the two passes deposit at pixel index `q = y*w + x`
(column `q % w`, row `q / w`). -/
def stackBlurChannel (pixels : List ℕ) (w h radius c : ℕ) (q : ℕ) : ℕ :=
  let interm := hPass (chReader pixels c) w h radius
  (vCol (fun i => (interm.getD i 0 : ℤ)) (q % w) w (h - 1) h radius).getD (q / w) 0

/-- The buffer the two sliding-window passes of `stackBlur` (part_000 lines
604-671) would produce for an already-floored `radius ≥ 1`, had execution
reached them: byte `j` of pixel `j / 4` is overwritten for channels
`j % 4 ∈ {0,1,2}` of every pixel index below `w * h`; alpha bytes
(`j % 4 = 3`) and any bytes beyond the `w * h` pixel grid are untouched. -/
def stackBlurPasses (pixels : List ℕ) (w h radius : ℕ) : List ℕ :=
  (List.range pixels.length).map fun j =>
    if j % 4 = 3 ∨ w * h ≤ j / 4 then pixels.getD j 0
    else stackBlurChannel pixels w h radius (j % 4) (j / 4)

/-! ## Compositor state tracking -/

/-- The value stored in the `blurredElements` map by `applyBlurredOverlay`:
`{ wrapper, overlay, badge }` (DOM nodes modelled by identifiers; `overlay` is
null on the CSS-only path). -/
structure OverlayRecord where
  wrapper : ℕ
  overlay : Option ℕ
  badge : ℕ
  deriving DecidableEq, Repr

/-- `BlurEngine.applyBlurredOverlay` (part_000 lines 674-739, part_001 lines
470-535) as a transition on the `blurredElements` map (modelled as an
association list keyed by element identity): the first line
`if (blurredElements.has(originalImg)) return;` makes a call for an
already-tracked element a no-op; otherwise the wrapper/overlay/badge are built
and `blurredElements.set(originalImg, { wrapper, overlay, badge })` records the
element (DOM construction abstracted into the stored record). -/
def applyBlurredOverlay (blurredElements : List (ℕ × OverlayRecord))
    (originalImg : ℕ) (record : OverlayRecord) : List (ℕ × OverlayRecord) :=
  if blurredElements.any fun kv => kv.1 == originalImg then blurredElements
  else blurredElements ++ [(originalImg, record)]

/-! ## Claims about the decision engine -/

/-- C1 (counterexample): part_000's `analyzeImage` with the detector unavailable
returns `isFallback = true` but `shouldBlur = false` — refuting, at this concrete
input, the claim that the fail-safe path always yields `shouldBlur = true`. -/
theorem analyzeImage_fallback_cex :
    (analyzeImage false false ⟨true, true, true, true⟩ [] 0 none).isFallback = true ∧
    (analyzeImage false false ⟨true, true, true, true⟩ [] 0 none).shouldBlur = false :=
  ⟨rfl, rfl⟩

/-- C1 (amended): with the detector unavailable, part_000's/part_001's
`analyzeImage` returns `{faces: [], bodySegmentation: none, shouldBlur: false,
isFallback: true}` for every combination of the other inputs (it skips analysis
without requesting a blur; whole-frame protection is driven by the `isFallback`
flag in `BlurEngine.applyBlur` instead), while part_002's `analyzeImageV2`
returns the claimed `{shouldBlur: true, isFallback: true}` for every input. -/
theorem analyzeImage_detector_unavailable :
    ∀ (dt : Bool) (s : Settings) (dets : List Detection) (n : ℕ)
      (seg : Option Segmentation) (fm bm ft sgt : Bool) (preds : List Face)
      (seg2 : Option Segmentation),
      analyzeImage false dt s dets n seg =
        { faces := [], bodySegmentation := none, shouldBlur := false, isFallback := true } ∧
      analyzeImageV2 false s fm bm ft sgt preds seg2 =
        { faces := [], bodySegmentation := none, shouldBlur := true, isFallback := true } :=
  fun _ _ _ _ _ _ _ _ _ _ _ => ⟨rfl, rfl⟩

/-- C6 (counterexample): part_000's `analyzeImage` with models loaded and an
exception from the external detector call returns `isFallback = false` and
`shouldBlur = false` at this concrete input — not the step-1 fallback result
the claim demands. -/
theorem analyzeImage_throw_cex :
    (analyzeImage true true ⟨true, true, true, true⟩ [] 0 none).isFallback = false ∧
    (analyzeImage true true ⟨true, true, true, true⟩ [] 0 none).shouldBlur = false :=
  ⟨rfl, rfl⟩

/-- C6 (amended): an exception from an external detector call never propagates
out of the decision operation in any version, but no version treats the cycle
as detector-unavailable: part_000's/part_001's `analyzeImage` swallows the
exception in its empty catch and returns the initial results object —
`isFallback = false, shouldBlur = false`, no faces, no mask — and part_002
swallows it inside `detectFaces`/`segmentBody`, which substitute `[]`/`null`,
so the cycle completes normally with `isFallback = false` (and
`shouldBlur = false` when the throwing calls were the only evidence sources);
part_002's outer catch (`shouldBlur = true, isFallback = true`) is unreachable
by an external detector-call exception. -/
theorem analyzeImage_detector_throw :
    ∀ (s : Settings) (dets : List Detection) (n : ℕ) (seg : Option Segmentation)
      (fm bm : Bool) (preds : List Face) (seg2 : Option Segmentation),
      analyzeImage true true s dets n seg =
        { faces := [], bodySegmentation := none, shouldBlur := false, isFallback := false } ∧
      detectFaces fm true preds = [] ∧
      segmentBody bm true seg2 = none ∧
      analyzeImageV2 true s fm bm true true preds seg2 =
        { faces := [], bodySegmentation := none, shouldBlur := false, isFallback := false } := by
  intro s dets n seg fm bm preds seg2
  have hdf : detectFaces fm true preds = [] := by cases fm <;> rfl
  have hsb : segmentBody bm true seg2 = none := by cases bm <;> rfl
  refine ⟨rfl, hdf, hsb, ?_⟩
  cases h1 : s.blurFaces && fm <;> cases h2 : s.blurBodies && bm <;>
    simp [analyzeImageV2, h1, h2, hdf, hsb, hasPersonInSegmentationV2]

/-- C3: a face is flagged iff `blurFaces`, or `blurMen` and its effective gender
is male, or `blurWomen` and its effective gender is female; the effective gender
is the detected gender exactly when confidence is at or above the 0.7 threshold
and `unknown` below it; and a face of unknown effective gender is flagged only
through the `blurFaces` path. -/
theorem shouldBlurFace_policy :
    ∀ (s : Settings) (g : Gender) (prob : ℚ),
      (shouldBlurFace s g prob = true ↔
        (s.blurFaces = true
          ∨ (s.blurMen = true ∧ effectiveGender g prob = Gender.male)
          ∨ (s.blurWomen = true ∧ effectiveGender g prob = Gender.female))) ∧
      effectiveGender g prob = (if 7 / 10 ≤ prob then g else Gender.unknown) ∧
      (effectiveGender g prob = Gender.unknown → shouldBlurFace s g prob = s.blurFaces) := by
  intro s g prob
  refine ⟨?_, ?_, ?_⟩
  · cases hbf : s.blurFaces <;>
      simp [shouldBlurFace, hbf, Bool.or_eq_true, Bool.and_eq_true, decide_eq_true_iff]
  · rcases lt_or_le prob (7 / 10) with h | h
    · rw [effectiveGender, if_pos h, if_neg (not_le.mpr h)]
    · rw [effectiveGender, if_neg (not_lt.mpr h), if_pos h]
  · intro hu
    cases hbf : s.blurFaces <;> simp [shouldBlurFace, hbf, hu]

/-- C3 (witness): a male face at confidence 0.5 with `blurMen` on but
`blurFaces` off has effective gender `unknown` and is not flagged. -/
theorem shouldBlurFace_policy_witness :
    effectiveGender Gender.male (1 / 2) = Gender.unknown ∧
    shouldBlurFace ⟨false, true, false, false⟩ Gender.male (1 / 2) = false :=
  ⟨by norm_num [effectiveGender], by
    have h := (shouldBlurFace_policy ⟨false, true, false, false⟩ Gender.male (1 / 2)).2.2
      (by norm_num [effectiveGender])
    simpa using h⟩

/-- C4: with `blurBodies` enabled (models loaded, no detector error), the body
mask returned by `analyzeImage` is exactly the segmentation gated by
`runBodyPix`; `runBodyPix` holds iff a face was flagged or the second face pass
found no face at all; and when faces were detected but none flagged, the body
mask is dropped. -/
theorem analyzeImage_body_tiebreak :
    ∀ (s : Settings) (dets : List Detection) (n : ℕ) (seg : Option Segmentation),
      s.blurBodies = true →
      ((analyzeImage true false s dets n seg).bodySegmentation =
        (if runBodyPix (flaggedFaces s dets) n then seg else none)) ∧
      (runBodyPix (flaggedFaces s dets) n = true ↔ (flaggedFaces s dets ≠ [] ∨ n = 0)) ∧
      (flaggedFaces s dets = [] → 0 < n →
        (analyzeImage true false s dets n seg).bodySegmentation = none) := by
  intro s dets n seg hb
  have hrun : runBodyPix (flaggedFaces s dets) n = true ↔ (flaggedFaces s dets ≠ [] ∨ n = 0) := by
    rcases hf : flaggedFaces s dets with _ | ⟨a, l⟩
    · rcases Nat.eq_zero_or_pos n with hn | hn
      · subst hn; simp [runBodyPix]
      · simp [runBodyPix, hn.ne']
    · simp [runBodyPix]
  refine ⟨by simp [analyzeImage, hb], hrun, ?_⟩
  intro hf hn
  have : runBodyPix (flaggedFaces s dets) n = false := by
    cases hr : runBodyPix (flaggedFaces s dets) n
    · rfl
    · rcases hrun.mp hr with h | h
      · exact absurd hf h
      · omega
  simp [analyzeImage, hb, this]

/-- C4 (witness): `blurBodies` on, one safe (unflagged) face seen by the second
pass, and a 100%-coverage mask available — the body mask is not selected. -/
theorem analyzeImage_body_tiebreak_witness :
    (⟨false, false, false, true⟩ : Settings).blurBodies = true ∧
    (analyzeImage true false ⟨false, false, false, true⟩ [] 1
        (some ⟨some [1, 1]⟩)).bodySegmentation = none :=
  ⟨rfl, (analyzeImage_body_tiebreak ⟨false, false, false, true⟩ [] 1
      (some ⟨some [1, 1]⟩) rfl).2.2 rfl (by norm_num)⟩

/-- C10: `hasPersonInSegmentation` is false for a null segmentation or a
segmentation without a `data` array, and otherwise true iff the strictly
positive entries exceed the fixed 0.5% fraction of the array length
(equivalently, `200 * count > length`); it takes no settings input, so no
caller-supplied threshold is consulted. -/
theorem hasPersonInSegmentation_spec :
    hasPersonInSegmentation none = false ∧
    (∀ seg : Segmentation, seg.data = none → hasPersonInSegmentation (some seg) = false) ∧
    (∀ data : List ℤ,
      (hasPersonInSegmentation (some ⟨some data⟩) = true ↔
        data.length < 200 * data.countP fun val => decide (0 < val))) := by
  refine ⟨rfl, ?_, ?_⟩
  · rintro ⟨_ | d⟩ h
    · rfl
    · simp at h
  · intro data
    rw [hasPersonInSegmentation]
    simp only [decide_eq_true_iff, gt_iff_lt]
    rw [List.countP_eq_length_filter]
    constructor
    · intro h
      have h200 : (data.length : ℚ) < 200 * ((data.filter fun val => decide (0 < val)).length : ℚ) := by
        nlinarith
      exact_mod_cast h200
    · intro h
      have h200 : (data.length : ℚ) < 200 * ((data.filter fun val => decide (0 < val)).length : ℚ) := by
        exact_mod_cast h
      nlinarith

/-- C10 (witness): a 2-entry array with both entries positive (100% coverage)
trips the 0.5% threshold; the missing-`data` case evaluates to false. -/
theorem hasPersonInSegmentation_spec_witness :
    hasPersonInSegmentation (some ⟨none⟩) = false ∧
    hasPersonInSegmentation (some ⟨some [1, 1]⟩) = true :=
  ⟨hasPersonInSegmentation_spec.2.1 ⟨none⟩ rfl,
   (hasPersonInSegmentation_spec.2.2 [1, 1]).mpr (by norm_num)⟩

/-! ## Claims about the blur compositor -/

/-- C5 (counterexample): for the face box `(80,10)-(99,30)` (inside a 100×100
frame), `blurRegion`'s padded rectangle reaches `expandedX + expandedWidth =
103 > 100`: the region is not clamped to `[0, W)` before the pixel reads of
`getImageData`. -/
theorem blurRegion_right_edge_cex :
    100 < (blurRegion (80, 10) (99, 30)).expandedX +
      (blurRegion (80, 10) (99, 30)).expandedWidth := by
  norm_num [blurRegion]

/-- C5 (amended): `blurRegion` clamps the padded rectangle only on the left and
top edges (`expandedX ≥ 0`, `expandedY ≥ 0`, and never left of the unclamped
origin); its width and height are `width + 2·padding` (resp. height)
unconditionally, so the region may extend past the right/bottom frame edges,
with out-of-bounds handling delegated to the canvas
`getImageData`/`putImageData` calls. -/
theorem blurRegion_clamps_left_top :
    ∀ tl br : ℚ × ℚ,
      0 ≤ (blurRegion tl br).expandedX ∧ 0 ≤ (blurRegion tl br).expandedY ∧
      (blurRegion tl br).expandedWidth =
        br.1 - tl.1 + max (br.1 - tl.1) (br.2 - tl.2) * (2 / 10) * 2 ∧
      (blurRegion tl br).expandedHeight =
        br.2 - tl.2 + max (br.1 - tl.1) (br.2 - tl.2) * (2 / 10) * 2 := by
  intro tl br
  exact ⟨le_max_left _ _, le_max_left _ _, rfl, rfl⟩

/-- C7: `stackBlur` with any radius whose floor is below 1 (in particular any
radius ≤ 0) returns the buffer unchanged byte-for-byte. -/
theorem stackBlur_noop_small_radius :
    ∀ (pixels : List ℕ) (w h : ℕ) (radius : ℚ), ⌊radius⌋ < 1 →
      stackBlur pixels w h radius = Except.ok pixels := by
  intro pixels w h radius hr
  rw [stackBlur, if_pos hr]

/-- C7 (witness): radius 0 on a concrete 2×1 buffer is an exact passthrough. -/
theorem stackBlur_noop_small_radius_witness :
    (⌊(0 : ℚ)⌋ < 1) ∧
    stackBlur [5, 6, 7, 8, 9, 10, 11, 12] 2 1 0 = Except.ok [5, 6, 7, 8, 9, 10, 11, 12] :=
  ⟨by norm_num, stackBlur_noop_small_radius [5, 6, 7, 8, 9, 10, 11, 12] 2 1 0 (by norm_num)⟩

/-- C2 (code evaluated at the failing input): `stackBlur` on a 1×1 buffer at
radius 1 reaches the `divsum *= divsum` assignment to a `const` binding and
throws, producing no output channel values at all. -/
theorem stackBlur_throws_const_divsum :
    stackBlur [10, 20, 30, 255] 1 1 1 = Except.error () := by
  rw [stackBlur, if_neg (by norm_num)]

/-- C9: calling `applyBlurredOverlay` a second time in succession for the same
element is a no-op (the `blurredElements.has` guard), so an element untracked
before the first call is tracked by exactly one record after the second. -/
theorem applyBlurredOverlay_idempotent :
    ∀ (st : List (ℕ × OverlayRecord)) (img : ℕ) (rec : OverlayRecord),
      applyBlurredOverlay (applyBlurredOverlay st img rec) img rec =
        applyBlurredOverlay st img rec ∧
      ((st.countP fun kv => kv.1 == img) = 0 →
        ((applyBlurredOverlay (applyBlurredOverlay st img rec) img rec).countP
          fun kv => kv.1 == img) = 1) := by
  intro st img rec
  by_cases h : st.any fun kv => kv.1 == img
  · have e : applyBlurredOverlay st img rec = st := by
      rw [applyBlurredOverlay, if_pos h]
    constructor
    · rw [e, e]
    · intro hc
      exfalso
      rcases List.any_eq_true.mp h with ⟨kv, hmem, hkv⟩
      have := List.countP_eq_zero.mp hc kv hmem
      simp_all
  · have e : applyBlurredOverlay st img rec = st ++ [(img, rec)] := by
      rw [applyBlurredOverlay, if_neg h]
    have h2 : (st ++ [(img, rec)]).any (fun kv => kv.1 == img) = true := by
      refine List.any_eq_true.mpr ⟨(img, rec), ?_, by simp⟩
      simp
    have e2 : applyBlurredOverlay (applyBlurredOverlay st img rec) img rec =
        applyBlurredOverlay st img rec := by
      rw [e, applyBlurredOverlay, if_pos h2]
    refine ⟨e2, ?_⟩
    intro hc
    rw [e2, e, List.countP_append, hc]
    simp

/-- C9 (witness): starting from an empty map, two successive calls for element 0
leave exactly one record. -/
theorem applyBlurredOverlay_idempotent_witness :
    (([] : List (ℕ × OverlayRecord)).countP fun kv => kv.1 == 0) = 0 ∧
    ((applyBlurredOverlay (applyBlurredOverlay [] 0 ⟨1, some 2, 3⟩) 0 ⟨1, some 2, 3⟩).countP
      fun kv => kv.1 == 0) = 1 :=
  ⟨rfl, (applyBlurredOverlay_idempotent [] 0 ⟨1, some 2, 3⟩).2 rfl⟩

/-- Indexing a map over `List.range`. -/
theorem getD_range_map (f : ℕ → ℕ) (n j : ℕ) :
    ((List.range n).map f).getD j 0 = if j < n then f j else 0 := by
  rw [List.getD_eq_getElem?_getD, List.getElem?_map]
  by_cases h : j < n
  · rw [List.getElem?_range h, if_pos h]
    rfl
  · rw [if_neg h, List.getElem?_eq_none]
    · rfl
    · simpa using Nat.le_of_not_lt h

/-- Pointwise description of `stackBlurPasses`. -/
theorem stackBlurPasses_getD (pixels : List ℕ) (w h radius j : ℕ) :
    (stackBlurPasses pixels w h radius).getD j 0 =
      if j < pixels.length then
        if j % 4 = 3 ∨ w * h ≤ j / 4 then pixels.getD j 0
        else stackBlurChannel pixels w h radius (j % 4) (j / 4)
      else 0 := by
  rw [stackBlurPasses]
  exact getD_range_map _ _ _

/-- C8: a `stackBlur` call leaves every alpha byte (index `4k+3`) of the buffer
unchanged (under the actual call semantics — early return or throw — via
`stackBlurBufferAfter`, and also under the sliding-window passes themselves via
`stackBlurPasses`, which write only channels 0,1,2); and each colour channel of
the passes is computed independently of the other channels: two buffers of
equal length agreeing on channel `c` produce equal channel-`c` outputs. -/
theorem stackBlur_touches_only_rgb :
    (∀ (pixels : List ℕ) (w h : ℕ) (radius : ℚ) (k : ℕ),
        (stackBlurBufferAfter pixels w h radius).getD (4 * k + 3) 0
          = pixels.getD (4 * k + 3) 0) ∧
    (∀ (pixels : List ℕ) (w h radius k : ℕ),
        (stackBlurPasses pixels w h radius).getD (4 * k + 3) 0
          = pixels.getD (4 * k + 3) 0) ∧
    (∀ (p q : List ℕ) (w h radius c j : ℕ),
        c < 3 → p.length = q.length →
        (∀ i, p.getD (4 * i + c) 0 = q.getD (4 * i + c) 0) → j % 4 = c →
        (stackBlurPasses p w h radius).getD j 0
          = (stackBlurPasses q w h radius).getD j 0) := by
  refine ⟨?_, ?_, ?_⟩
  · intro pixels w h radius k
    rw [stackBlurBufferAfter, stackBlur]
    by_cases hr : ⌊radius⌋ < 1 <;> simp [hr]
  · intro pixels w h radius k
    rw [stackBlurPasses_getD]
    by_cases hk : 4 * k + 3 < pixels.length
    · rw [if_pos hk, if_pos (Or.inl (by omega))]
    · rw [if_neg hk]
      exact (List.getD_eq_default _ _ (by omega)).symm
  · intro p q w h radius c j hc hlen hch hj
    have hcr : chReader p c = chReader q c := by
      funext i
      have h1 := hch i
      simp only [chReader]
      exact_mod_cast h1
    rw [stackBlurPasses_getD, stackBlurPasses_getD, ← hlen]
    by_cases hjl : j < p.length
    · rw [if_pos hjl, if_pos hjl]
      by_cases hwh : w * h ≤ j / 4
      · rw [if_pos (Or.inr hwh), if_pos (Or.inr hwh)]
        have h2 := hch (j / 4)
        rw [show 4 * (j / 4) + c = j from by omega] at h2
        exact h2
      · have hcond : ¬(j % 4 = 3 ∨ w * h ≤ j / 4) := by
          push_neg
          exact ⟨by omega, by omega⟩
        rw [if_neg hcond, if_neg hcond]
        simp only [stackBlurChannel]
        rw [hj, hcr]
    · rw [if_neg hjl, if_neg hjl]

/-- C8 (witness): two 1×1 buffers differing only off channel 0 give the same
channel-0 output of the passes. -/
theorem stackBlur_touches_only_rgb_witness :
    (0 : ℕ) < 3 ∧ ([1, 2, 3, 4] : List ℕ).length = ([1, 9, 9, 9] : List ℕ).length ∧
    (0 : ℕ) % 4 = 0 ∧
    (stackBlurPasses [1, 2, 3, 4] 1 1 1).getD 0 0 =
      (stackBlurPasses [1, 9, 9, 9] 1 1 1).getD 0 0 := by
  refine ⟨by norm_num, rfl, rfl, ?_⟩
  refine stackBlur_touches_only_rgb.2.2 [1, 2, 3, 4] [1, 9, 9, 9] 1 1 1 0 0
    (by norm_num) rfl ?_ rfl
  intro i
  match i with
  | 0 => rfl
  | (n + 1) =>
    rw [List.getD_eq_default _ _ (by simp), List.getD_eq_default _ _ (by simp)]

end HalalVision
